import Mathlib

/-!
Verification of the straight-line acceleration simulator (src/main.py).

The Python source is shallowly embedded: each class becomes a structure,
derived attributes become definitions, and the per-tick mutation of the
`Sim` object becomes a pure step function on an explicit state record.
Floating-point numbers are idealised as real numbers; the one place where
the source's float semantics is not total (the division `Fx/normalForce`
inside `Tire.lonFriction`, which produces NaN at zero load) is modelled
with `Option`, `none` standing for the NaN result.  `scipy.optimize.fsolve`
is an external iterative root finder; the step function takes it as an
oracle parameter `solver : ℝ → Fin 4 → ℝ` (torque and wheel index in, the
returned wheel speed out), so theorems quantified over `solver` hold for
whatever fsolve returns.
-/

/-- Vehicle parameters (src/main.py lines 15-34): `a`, `b` distances from
the cg to the front and rear axles, mass `m`, cg height `h`, drag
coefficient `cd`, reference area `A`. -/
structure Vehicle where
  a : ℝ
  b : ℝ
  m : ℝ
  h : ℝ
  cd : ℝ
  A : ℝ

/-- Wheelbase, set as `self.l = a + b` in `Vehicle.__init__`. -/
def Vehicle.l (V : Vehicle) : ℝ := V.a + V.b

/-- Motor parameters (lines 36-45): speed constant `Kv` and efficiency `k`. -/
structure Motor where
  Kv : ℝ
  k : ℝ

/-- Torque constant, set as `self.Kt = 1/(Kv*0.10472)` in `Motor.__init__`. -/
noncomputable def Motor.Kt (M : Motor) : ℝ := 1 / (M.Kv * 0.10472)

/-- Battery parameters (lines 47-61). -/
structure Battery where
  Ah : ℝ
  C : ℝ
  V : ℝ
  B_time : ℝ

/-- Continuous discharge current, `self.Constant = C * Ah`. -/
def Battery.Constant (B : Battery) : ℝ := B.C * B.Ah

/-- Burst current limit, `self.Burst = self.Constant * 1.95`. -/
def Battery.Burst (B : Battery) : ℝ := B.Constant * 1.95

/-- Tire parameters (lines 63-75): radius `r`, wheel inertia `J`, and the
four Pacejka coefficients `a b c d`. -/
structure Tire where
  r : ℝ
  J : ℝ
  a : ℝ
  b : ℝ
  c : ℝ
  d : ℝ

/-- The local variable `Fx` of `Tire.lonFriction` (line 78):
`normalForce * d * sin(c * arctan(b*slip - a*(b*slip - arctan(b*slip))))`. -/
noncomputable def FxRaw (t : Tire) (slip normalForce : ℝ) : ℝ :=
  normalForce * t.d *
    Real.sin (t.c * Real.arctan (t.b * slip - t.a * (t.b * slip - Real.arctan (t.b * slip))))

/-- The value `u = Fx/normalForce` returned by `Tire.lonFriction` (lines
79-80), as a total real-valued function (real division; the zero-load case
is isolated in `Tire.lonFriction` below).  The simulator only ever uses
this value multiplied back by a normal load. -/
noncomputable def lonFrictionVal (t : Tire) (slip normalForce : ℝ) : ℝ :=
  FxRaw t slip normalForce / normalForce

/-- Tire.lonFriction (lines 77-80).  The source computes
`Fx = normalForce * d * sin(...)` and returns `u = Fx/normalForce`; with
`normalForce = 0` that division is `0.0/0.0`, which is NaN under the
source's float semantics, modelled here as `none`. -/
noncomputable def Tire.lonFriction (t : Tire) (slip normalForce : ℝ) : Option ℝ :=
  if normalForce = 0 then none else some (lonFrictionVal t slip normalForce)

/-- Modelled from the spec: the return value the spec's contract claims for
`longitudinalFriction`, namely the longitudinal force
`Fx = normalForce * mu` with `mu = d*sin(c*atan(b*s - a*(b*s - atan(b*s))))`
(spec section 4.1).  Kept separate from the source translation so the two
can be compared. -/
noncomputable def specLonForce (t : Tire) (slip normalForce : ℝ) : ℝ :=
  normalForce *
    (t.d * Real.sin (t.c * Real.arctan (t.b * slip - t.a * (t.b * slip - Real.arctan (t.b * slip)))))

/-- Python's `max` over a list, as a left fold: the accumulator is replaced
only when a strictly larger element appears, so the first maximal element
is the one kept. -/
noncomputable def pyFoldMax (acc : ℝ) : List ℝ → ℝ
  | [] => acc
  | x :: xs => pyFoldMax (if x > acc then x else acc) xs

/-- Python's `max(list)` for the nonempty lists the simulator builds (the
`[]` case is junk, never reached: every list scanned has 100 elements). -/
noncomputable def pyMaxL : List ℝ → ℝ
  | [] => 0
  | x :: xs => pyFoldMax x xs

/-- Python's `list.index(v)`: the index of the first element equal to `v`
(junk value `length` when `v` is absent; the simulator only searches for
`max(list)`, which is always present). -/
noncomputable def pyIndexOf (v : ℝ) : List ℝ → ℕ
  | [] => 0
  | x :: xs => if x = v then 0 else pyIndexOf v xs + 1

/-- One entry of the peak-force scan (lines 154-159): the grid sample
`slip_it = n/100` evaluated as `lonFriction(slip_it, Fz) * Fz`. -/
noncomputable def gridForce (t : Tire) (Fz : ℝ) (n : ℕ) : ℝ :=
  lonFrictionVal t ((n : ℝ) / 100) Fz * Fz

/-- The per-wheel list `P_??_list` built by the loop `for n in range(100)`
(lines 154-159), in increasing slip order. -/
noncomputable def gridList (t : Tire) (Fz : ℝ) : List ℝ :=
  (List.range 100).map (gridForce t Fz)

/-- `P[n] = max(P_??_list)` (lines 162-171). -/
noncomputable def peakForce (t : Tire) (Fz : ℝ) : ℝ :=
  pyMaxL (gridList t Fz)

/-- The grid index `P_??_list.index(P[n])` (lines 163-172). -/
noncomputable def peakIdx (t : Tire) (Fz : ℝ) : ℕ :=
  pyIndexOf (peakForce t Fz) (gridList t Fz)

/-- `slip[n] = P_??_list.index(P[n])/100` (lines 163-172). -/
noncomputable def peakSlip (t : Tire) (Fz : ℝ) : ℝ :=
  (peakIdx t Fz : ℝ) / 100

/-- The configuration a `Sim` object is constructed with
(`Sim.__init__`, lines 89-95): the four component specs plus `dt` and
`runtime`. -/
structure Sim where
  Vehicle : Vehicle
  Motor : Motor
  Tire : Tire
  Battery : Battery
  dt : ℝ
  runtime : ℝ

/-- The mutable state of a `Sim` object: the `_current_*` attributes
(lines 98-109), with the four parallel per-wheel lists as functions on
`Fin 4` (indices 0=RF, 1=LF, 2=LR, 3=RR). -/
structure SimState where
  x : ℝ
  x_dot : ℝ
  x_ddot : ℝ
  time : ℝ
  amps : Fin 4 → ℝ
  Fz : Fin 4 → ℝ
  P : Fin 4 → ℝ
  slip : Fin 4 → ℝ
  w : Fin 4 → ℝ

/-- The static load split `_inital_Fz` (lines 103-104): front wheels get
`m*b/l/2`, rear wheels `m*a/l/2`. -/
noncomputable def initFz (S : Sim) (n : Fin 4) : ℝ :=
  if (n : ℕ) ≤ 1 then S.Vehicle.m * S.Vehicle.b / S.Vehicle.l / 2
  else S.Vehicle.m * S.Vehicle.a / S.Vehicle.l / 2

/-- The initial conditions set in `Sim.__init__` (lines 98-109): zero
position, `x_dot = 0.0001`, zero acceleration, time, currents, forces,
slips and wheel speeds, and the static load split. -/
noncomputable def initState (S : Sim) : SimState where
  x := 0
  x_dot := 0.0001
  x_ddot := 0
  time := 0
  amps := fun _ => 0
  Fz := initFz S
  P := fun _ => 0
  slip := fun _ => 0
  w := fun _ => 0

/-- The provisional wheel speed `w[n] = x_dot / (r * (1 - slip[n]))` at the
peak-traction slip (lines 175-176). -/
noncomputable def provW (S : Sim) (s : SimState) (n : Fin 4) : ℝ :=
  s.x_dot / (S.Tire.r * (1 - peakSlip S.Tire (s.Fz n)))

/-- The provisional driveline torque
`T[n] = J*(w[n] - w_prev[n]) + r*P[n]` (lines 179-180). -/
noncomputable def provT (S : Sim) (s : SimState) (n : Fin 4) : ℝ :=
  S.Tire.J * (provW S s n - s.w n) + S.Tire.r * peakForce S.Tire (s.Fz n)

/-- The torque-to-current map `amps[n] = T[n] / Kt * (1/k)` (lines
183-184). -/
noncomputable def ampsRequired (M : Motor) (T : ℝ) : ℝ :=
  T / M.Kt * (1 / M.k)

/-- The provisional current demand of wheel `n` (line 184). -/
noncomputable def provAmps (S : Sim) (s : SimState) (n : Fin 4) : ℝ :=
  ampsRequired S.Motor (provT S s n)

/-- The condition of the current-limit branch,
`amps[n] > self.Battery.Burst` (line 190). -/
def isClamped (S : Sim) (s : SimState) (n : Fin 4) : Prop :=
  provAmps S s n > S.Battery.Burst

noncomputable instance (S : Sim) (s : SimState) (n : Fin 4) :
    Decidable (isClamped S s n) := by
  unfold isClamped; infer_instance

/-- The torque recomputed after the clamp,
`T[n] = amps[n] * Kt * (1/k)` with `amps[n] = Battery.Burst` (line 192). -/
noncomputable def clampedTorque (M : Motor) (amps : ℝ) : ℝ :=
  amps * M.Kt * (1 / M.k)

/-- The wheel speed committed in the clamped branch: whatever
`fsolve(self.w_fun, 1, args=(T[n], n))` returns (line 193), here the
oracle `solver` applied to the clamped torque and the wheel index. -/
noncomputable def wClamped (S : Sim) (solver : ℝ → Fin 4 → ℝ) (n : Fin 4) : ℝ :=
  solver (clampedTorque S.Motor S.Battery.Burst) n

/-- The slip recomputed in the clamped branch,
`slip[n] = 1 - x_dot / (r * w[n])` (line 194). -/
noncomputable def slipClamped (S : Sim) (solver : ℝ → Fin 4 → ℝ) (s : SimState) (n : Fin 4) : ℝ :=
  1 - s.x_dot / (S.Tire.r * wClamped S solver n)

/-- The force recomputed in the clamped branch,
`P[n] = lonFriction(slip[n], Fz[n]) * Fz[n]` (line 195). -/
noncomputable def PClamped (S : Sim) (solver : ℝ → Fin 4 → ℝ) (s : SimState) (n : Fin 4) : ℝ :=
  lonFrictionVal S.Tire (slipClamped S solver s n) (s.Fz n) * s.Fz n

/-- The current of wheel `n` after the limit loop (lines 189-191). -/
noncomputable def ampsOut (S : Sim) (s : SimState) (n : Fin 4) : ℝ :=
  if isClamped S s n then S.Battery.Burst else provAmps S s n

/-- The wheel speed of wheel `n` after the limit loop (lines 189-193). -/
noncomputable def wOut (S : Sim) (solver : ℝ → Fin 4 → ℝ) (s : SimState) (n : Fin 4) : ℝ :=
  if isClamped S s n then wClamped S solver n else provW S s n

/-- The slip of wheel `n` after the limit loop (lines 189-194). -/
noncomputable def slipOut (S : Sim) (solver : ℝ → Fin 4 → ℝ) (s : SimState) (n : Fin 4) : ℝ :=
  if isClamped S s n then slipClamped S solver s n else peakSlip S.Tire (s.Fz n)

/-- The longitudinal force of wheel `n` after the limit loop (lines
189-195). -/
noncomputable def POut (S : Sim) (solver : ℝ → Fin 4 → ℝ) (s : SimState) (n : Fin 4) : ℝ :=
  if isClamped S s n then PClamped S solver s n else peakForce S.Tire (s.Fz n)

/-- Air resistance `F_aero = (cd * 1.225 * x_dot**2 * A) / 2` (line 198). -/
noncomputable def F_aero (S : Sim) (s : SimState) : ℝ :=
  S.Vehicle.cd * 1.225 * s.x_dot ^ 2 * S.Vehicle.A / 2

/-- `x_ddot = (sum(P) - F_aero) / m` (line 202). -/
noncomputable def xddotOut (S : Sim) (solver : ℝ → Fin 4 → ℝ) (s : SimState) : ℝ :=
  (POut S solver s 0 + POut S solver s 1 + POut S solver s 2 + POut S solver s 3
    - F_aero S s) / S.Vehicle.m

/-- `x_dot = x_dot + x_ddot * dt` (line 205). -/
noncomputable def xdotOut (S : Sim) (solver : ℝ → Fin 4 → ℝ) (s : SimState) : ℝ :=
  s.x_dot + xddotOut S solver s * S.dt

/-- Weight transfer `wtfr = h/l * m * x_ddot / 9.81` (line 211). -/
noncomputable def wtfrOut (S : Sim) (solver : ℝ → Fin 4 → ℝ) (s : SimState) : ℝ :=
  S.Vehicle.h / S.Vehicle.l * S.Vehicle.m * xddotOut S solver s / 9.81

/-- The new normal loads (lines 214-217): recomputed each tick from the
initial static split, front wheels minus `wtfr/2`, rear wheels plus. -/
noncomputable def FzOut (S : Sim) (solver : ℝ → Fin 4 → ℝ) (s : SimState) (n : Fin 4) : ℝ :=
  if (n : ℕ) ≤ 1 then initFz S n - wtfrOut S solver s / 2
  else initFz S n + wtfrOut S solver s / 2

/-- One call of `Sim.accel_FrictionLimited` followed by `update_values`
(lines 139-221 and 123-133): the committed state of the next tick. -/
noncomputable def accel_FrictionLimited (S : Sim) (solver : ℝ → Fin 4 → ℝ)
    (s : SimState) : SimState where
  x := s.x + xdotOut S solver s * S.dt
  x_dot := xdotOut S solver s
  x_ddot := xddotOut S solver s
  time := s.time + S.dt
  amps := ampsOut S s
  Fz := FzOut S solver s
  P := POut S solver s
  slip := slipOut S solver s
  w := wOut S solver s

/-- The residual `Sim.w_fun(w, T, axle)` handed to fsolve (lines 135-137):
`J*(w - w_prev[axle]) + r * lonFriction(1 - x_dot/(r*w), Fz[axle]) * Fz[axle] - T`. -/
noncomputable def w_fun (S : Sim) (s : SimState) (w T : ℝ) (axle : Fin 4) : ℝ :=
  S.Tire.J * (w - s.w axle) +
    S.Tire.r * lonFrictionVal S.Tire (1 - s.x_dot / (S.Tire.r * w)) (s.Fz axle) * s.Fz axle - T

/-- The tick budget `int(self.runtime/self.dt)` of `Sim.__call__`
(line 224). -/
noncomputable def numTicks (S : Sim) : ℕ :=
  (⌊S.runtime / S.dt⌋).toNat

/-- The successive states committed by the loop of `Sim.__call__`: each
iteration runs `accel_FrictionLimited`, commits it, and appends one
snapshot to the output. -/
noncomputable def traceAux (S : Sim) (solver : ℝ → Fin 4 → ℝ) :
    ℕ → SimState → List SimState
  | 0, _ => []
  | n + 1, s => accel_FrictionLimited S solver s ::
      traceAux S solver n (accel_FrictionLimited S solver s)

/-- `Sim.__call__` (lines 223-237): the append-only output log, one
snapshot per tick, starting from the initial state. -/
noncomputable def simTrace (S : Sim) (solver : ℝ → Fin 4 → ℝ) : List SimState :=
  traceAux S solver (numTicks S) (initState S)

/-- The sum of the four normal loads of a state. -/
noncomputable def sumFz (s : SimState) : ℝ :=
  s.Fz 0 + s.Fz 1 + s.Fz 2 + s.Fz 3

/-- `frc_vehicle = Vehicle(0.126, 0.126, 5, 0.032, 0.75, 0.0418)`
(line 239). -/
def frc_vehicle : Vehicle := ⟨0.126, 0.126, 5, 0.032, 0.75, 0.0418⟩

/-- `frc_motor = Motor(2000, 0.8)` (line 240). -/
def frc_motor : Motor := ⟨2000, 0.8⟩

/-- `frc_tire = Tire(0.032, 0.00001667, 1.0301, 16.6675, 0.05343, 65.1759)`
(line 241). -/
def frc_tire : Tire := ⟨0.032, 0.00001667, 1.0301, 16.6675, 0.05343, 65.1759⟩

/-- `frc_battery = Battery(10, 5, 3.6, 8)` (line 242). -/
def frc_battery : Battery := ⟨10, 5, 3.6, 8⟩

/-- `sim = Sim(frc_vehicle, frc_motor, frc_tire, frc_battery, 0.01, 20)`
(line 244). -/
def frcSim : Sim := ⟨frc_vehicle, frc_motor, frc_tire, frc_battery, 0.01, 20⟩

/-- A concrete solver oracle used to instantiate solver-generic theorems. -/
def demoSolver : ℝ → Fin 4 → ℝ := fun _ _ => 1

/-- A degenerate configuration that forces the current-limit branch on the
very first tick with easily evaluated numbers: flat tire curve (`d = 0`),
unit radius and inertia, and a battery whose burst limit is zero. -/
def probeTire : Tire := ⟨1, 1, 0, 0, 0, 0⟩

/-- Vehicle for the degenerate configuration: `a = b = 1`, `m = 4`, so
every wheel starts with a unit normal load. -/
def probeVehicle : Vehicle := ⟨1, 1, 4, 0, 0, 0⟩

/-- Motor for the degenerate configuration: `Kv = 1`, `k = 1`. -/
def probeMotor : Motor := ⟨1, 1⟩

/-- Battery for the degenerate configuration: zero capacity, hence a burst
limit of `0`, so any positive current demand is clamped. -/
def probeBattery : Battery := ⟨0, 0, 0, 0⟩

/-- The degenerate simulation configuration. -/
def probeSim : Sim := ⟨probeVehicle, probeMotor, probeTire, probeBattery, 0.01, 20⟩

/-- A solver oracle standing for an fsolve call that failed to converge:
it returns `7`, which is not a root of the wheel-dynamics residual in the
probe configuration. -/
def probeSolver : ℝ → Fin 4 → ℝ := fun _ _ => 7

theorem pyFoldMax_le (acc : ℝ) (l : List ℝ) : acc ≤ pyFoldMax acc l := by
  induction l generalizing acc with
  | nil => simp [pyFoldMax]
  | cons x xs ih =>
    simp only [pyFoldMax]
    refine le_trans ?_ (ih _)
    split_ifs with h
    · exact le_of_lt h
    · exact le_refl _

theorem le_pyFoldMax (acc : ℝ) {x : ℝ} {l : List ℝ} (hx : x ∈ l) :
    x ≤ pyFoldMax acc l := by
  induction l generalizing acc with
  | nil => cases hx
  | cons y ys ih =>
    simp only [pyFoldMax]
    rcases List.mem_cons.mp hx with h | h
    · subst h
      refine le_trans ?_ (pyFoldMax_le _ _)
      split_ifs with h
      · exact le_refl _
      · exact le_of_not_lt h
    · exact ih _ h

theorem pyFoldMax_eq_or_mem (acc : ℝ) (l : List ℝ) :
    pyFoldMax acc l = acc ∨ pyFoldMax acc l ∈ l := by
  induction l generalizing acc with
  | nil => left; simp [pyFoldMax]
  | cons x xs ih =>
    simp only [pyFoldMax]
    rcases ih (if x > acc then x else acc) with h | h
    · rw [h]
      split_ifs with hx
      · right; exact List.mem_cons_self _ _
      · left; rfl
    · right; exact List.mem_cons_of_mem _ h

theorem le_pyMaxL {x : ℝ} {l : List ℝ} (hx : x ∈ l) : x ≤ pyMaxL l := by
  cases l with
  | nil => cases hx
  | cons y ys =>
    simp only [pyMaxL]
    rcases List.mem_cons.mp hx with h | h
    · subst h; exact pyFoldMax_le _ _
    · exact le_pyFoldMax _ h

theorem pyMaxL_mem {l : List ℝ} (hl : l ≠ []) : pyMaxL l ∈ l := by
  cases l with
  | nil => exact absurd rfl hl
  | cons y ys =>
    simp only [pyMaxL]
    rcases pyFoldMax_eq_or_mem y ys with h | h
    · rw [h]; exact List.mem_cons_self _ _
    · exact List.mem_cons_of_mem _ h

theorem pyIndexOf_lt_length {v : ℝ} {l : List ℝ} (hv : v ∈ l) :
    pyIndexOf v l < l.length := by
  induction l with
  | nil => cases hv
  | cons x xs ih =>
    simp only [pyIndexOf, List.length_cons]
    split_ifs with h
    · exact Nat.succ_pos _
    · have hx : v ∈ xs := by
        rcases List.mem_cons.mp hv with h' | h'
        · exact absurd h'.symm h
        · exact h'
      exact Nat.succ_lt_succ (ih hx)

theorem pyIndexOf_getD {v : ℝ} {l : List ℝ} (hv : v ∈ l) :
    l.getD (pyIndexOf v l) 0 = v := by
  induction l with
  | nil => cases hv
  | cons x xs ih =>
    simp only [pyIndexOf]
    split_ifs with h
    · simpa using h
    · have hx : v ∈ xs := by
        rcases List.mem_cons.mp hv with h' | h'
        · exact absurd h'.symm h
        · exact h'
      simpa using ih hx

theorem pyIndexOf_first {v : ℝ} {l : List ℝ} {j : ℕ}
    (hj : j < pyIndexOf v l) : l.getD j 0 ≠ v := by
  induction l generalizing j with
  | nil => simp [pyIndexOf] at hj
  | cons x xs ih =>
    simp only [pyIndexOf] at hj
    split_ifs at hj with h
    · exact absurd hj (Nat.not_lt_zero _)
    · cases j with
      | zero => simpa using h
      | succ k => simpa using ih (Nat.lt_of_succ_lt_succ hj)

theorem gridList_length (t : Tire) (Fz : ℝ) : (gridList t Fz).length = 100 := by
  simp [gridList]

theorem gridList_ne_nil (t : Tire) (Fz : ℝ) : gridList t Fz ≠ [] := by
  intro h
  have := gridList_length t Fz
  rw [h] at this
  simp at this

theorem gridList_getD (t : Tire) (Fz : ℝ) {k : ℕ} (hk : k < 100) :
    (gridList t Fz).getD k 0 = gridForce t Fz k := by
  have hk' : k < (gridList t Fz).length := by rw [gridList_length]; exact hk
  rw [List.getD_eq_getElem _ _ hk']
  simp [gridList]

theorem gridForce_mem (t : Tire) (Fz : ℝ) {k : ℕ} (hk : k < 100) :
    gridForce t Fz k ∈ gridList t Fz :=
  List.mem_map_of_mem _ (List.mem_range.mpr hk)

theorem lonFrictionVal_of_ne {t : Tire} {F : ℝ} (hF : F ≠ 0) (s : ℝ) :
    lonFrictionVal t s F =
      t.d * Real.sin (t.c * Real.arctan (t.b * s - t.a * (t.b * s - Real.arctan (t.b * s)))) := by
  rw [lonFrictionVal, FxRaw, mul_assoc]
  exact mul_div_cancel_left₀ _ hF

theorem lonFriction_of_ne {t : Tire} {F : ℝ} (hF : F ≠ 0) (s : ℝ) :
    Tire.lonFriction t s F = some (lonFrictionVal t s F) := by
  rw [Tire.lonFriction, if_neg hF]

theorem initFz_sum {S : Sim} (hl : S.Vehicle.l ≠ 0) :
    initFz S 0 + initFz S 1 + initFz S 2 + initFz S 3 = S.Vehicle.m := by
  have h0 : ((0 : Fin 4) : ℕ) = 0 := rfl
  have h1 : ((1 : Fin 4) : ℕ) = 1 := rfl
  have h2 : ((2 : Fin 4) : ℕ) = 2 := rfl
  have h3 : ((3 : Fin 4) : ℕ) = 3 := rfl
  rw [Vehicle.l] at hl
  simp only [initFz, h0, h1, h2, h3]
  norm_num
  field_simp [Vehicle.l]
  ring

theorem sumFz_accel (S : Sim) (solver : ℝ → Fin 4 → ℝ) (s : SimState) :
    sumFz (accel_FrictionLimited S solver s) =
      initFz S 0 + initFz S 1 + initFz S 2 + initFz S 3 := by
  have h0 : ((0 : Fin 4) : ℕ) = 0 := rfl
  have h1 : ((1 : Fin 4) : ℕ) = 1 := rfl
  have h2 : ((2 : Fin 4) : ℕ) = 2 := rfl
  have h3 : ((3 : Fin 4) : ℕ) = 3 := rfl
  simp only [sumFz, accel_FrictionLimited, FzOut, h0, h1, h2, h3]
  norm_num
  ring

theorem sumFz_initState (S : Sim) :
    sumFz (initState S) = initFz S 0 + initFz S 1 + initFz S 2 + initFz S 3 := rfl

theorem ampsOut_le (S : Sim) (s : SimState) (n : Fin 4) :
    ampsOut S s n ≤ S.Battery.Burst := by
  rw [ampsOut]
  split_ifs with h
  · exact le_refl _
  · exact le_of_not_lt h

theorem mem_traceAux {S : Sim} {solver : ℝ → Fin 4 → ℝ} :
    ∀ {n : ℕ} {s st : SimState}, st ∈ traceAux S solver n s →
      ∃ s0, st = accel_FrictionLimited S solver s0 := by
  intro n
  induction n with
  | zero => intro s st h; simp [traceAux] at h
  | succ k ih =>
    intro s st h
    simp only [traceAux, List.mem_cons] at h
    rcases h with h | h
    · exact ⟨s, h⟩
    · exact ih h

theorem traceAux_length (S : Sim) (solver : ℝ → Fin 4 → ℝ) :
    ∀ (n : ℕ) (s : SimState), (traceAux S solver n s).length = n := by
  intro n
  induction n with
  | zero => intro s; simp [traceAux]
  | succ k ih => intro s; simp [traceAux, ih]

theorem frcMu_pos :
    0 < frc_tire.d * Real.sin (frc_tire.c * Real.arctan (frc_tire.b * (1/2) -
        frc_tire.a * (frc_tire.b * (1/2) - Real.arctan (frc_tire.b * (1/2))))) := by
  have hb : frc_tire.b * (1/2 : ℝ) = 8.33375 := by norm_num [frc_tire]
  have ha : frc_tire.a = (1.0301 : ℝ) := rfl
  have hc : frc_tire.c = (0.05343 : ℝ) := rfl
  have hd : frc_tire.d = (65.1759 : ℝ) := rfl
  rw [hb, ha, hc, hd]
  have hatan_lb : (3/4 : ℝ) < Real.arctan 8.33375 := by
    have h1 : Real.arctan 1 < Real.arctan 8.33375 := Real.arctan_strictMono (by norm_num)
    rw [Real.arctan_one] at h1
    have h3 : (3 : ℝ) < Real.pi := Real.pi_gt_three
    linarith
  have hinner_pos : (0 : ℝ) < 8.33375 - 1.0301 * (8.33375 - Real.arctan 8.33375) := by
    nlinarith
  have harg_pos : (0 : ℝ) <
      0.05343 * Real.arctan (8.33375 - 1.0301 * (8.33375 - Real.arctan 8.33375)) := by
    have h4 := Real.arctan_strictMono hinner_pos
    rw [Real.arctan_zero] at h4
    nlinarith
  have harg_lt_pi :
      0.05343 * Real.arctan (8.33375 - 1.0301 * (8.33375 - Real.arctan 8.33375)) < Real.pi := by
    have h5 := Real.arctan_lt_pi_div_two (8.33375 - 1.0301 * (8.33375 - Real.arctan 8.33375))
    have h6 := Real.pi_pos
    nlinarith
  have hsin := Real.sin_pos_of_pos_of_lt_pi harg_pos harg_lt_pi
  nlinarith

/-- C1 counterexample: at slip 1/2 and normal load 2 the source function
does not return the force `normalForce * mu` the claim states; it returns
the coefficient `mu` alone, and `mu ≠ 2 * mu` because `mu > 0` there. -/
theorem C1_counterexample :
    Tire.lonFriction frc_tire (1/2) 2 ≠ some (specLonForce frc_tire (1/2) 2) := by
  intro hEq
  have h2 : (2 : ℝ) ≠ 0 := by norm_num
  rw [lonFriction_of_ne h2, lonFrictionVal_of_ne h2, specLonForce] at hEq
  have h := Option.some_inj.mp hEq
  have hpos := frcMu_pos
  linarith

/-- C1 (amended): for every slip and every nonzero normal load,
`Tire.lonFriction` returns the friction coefficient
`mu = d*sin(c*atan(b*s - a*(b*s - atan(b*s))))` — that is `Fx/normalForce`,
not the force `Fx = normalForce * mu` the spec's contract states. -/
theorem C1_lonFriction_returns_mu (t : Tire) (s F : ℝ) (hF : F ≠ 0) :
    Tire.lonFriction t s F =
      some (t.d * Real.sin (t.c * Real.arctan (t.b * s - t.a * (t.b * s - Real.arctan (t.b * s))))) := by
  rw [lonFriction_of_ne hF, lonFrictionVal_of_ne hF]

theorem C1_witness :
    Tire.lonFriction frc_tire 0 1 =
      some (frc_tire.d * Real.sin (frc_tire.c * Real.arctan (frc_tire.b * 0 -
        frc_tire.a * (frc_tire.b * 0 - Real.arctan (frc_tire.b * 0))))) :=
  C1_lonFriction_returns_mu frc_tire 0 1 (by norm_num)

/-- C7 counterexample: at zero normal load the zero-load call is not
well-defined and does not return 0 — the internal division `Fx/normalForce`
is `0.0/0.0`, NaN in the source's float semantics, modelled `none`. -/
theorem C7_counterexample : Tire.lonFriction frc_tire (3/10) 0 ≠ some 0 := by
  rw [Tire.lonFriction, if_pos rfl]
  exact fun h => Option.noConfusion h

/-- C7 (amended): with `normalForce = 0` the internal force product `Fx`
is 0, but the value the function returns is `Fx/normalForce = 0/0`, NaN in
the source (modelled `none`), so the zero-load call itself is already
ill-defined and callers must guard against zero load before calling. -/
theorem C7_zero_load (t : Tire) (s : ℝ) :
    FxRaw t s 0 = 0 ∧ Tire.lonFriction t s 0 = none := by
  constructor
  · rw [FxRaw]; ring
  · rw [Tire.lonFriction, if_pos rfl]

/-- C9: the tire curve is odd-symmetric in slip around 0: for every tire,
slip and normal load, `lonFriction(-s, F)` is the negation of
`lonFriction(s, F)` (lifted through the Option: both are `none` at zero
load). -/
theorem C9_odd_symmetry (t : Tire) (s F : ℝ) :
    Tire.lonFriction t (-s) F = (Tire.lonFriction t s F).map (fun y => -y) := by
  by_cases hF : F = 0
  · subst hF
    rw [Tire.lonFriction, Tire.lonFriction, if_pos rfl, if_pos rfl]
    rfl
  · rw [lonFriction_of_ne hF, lonFriction_of_ne hF, Option.map_some']
    suffices h : lonFrictionVal t (-s) F = -lonFrictionVal t s F by rw [h]
    rw [lonFrictionVal_of_ne hF, lonFrictionVal_of_ne hF]
    have h1 : t.b * -s - t.a * (t.b * -s - Real.arctan (t.b * -s)) =
        -(t.b * s - t.a * (t.b * s - Real.arctan (t.b * s))) := by
      rw [show t.b * -s = -(t.b * s) by ring, Real.arctan_neg]
      ring
    rw [h1, Real.arctan_neg, mul_neg, Real.sin_neg, mul_neg]

/-- C2 counterexample: after the first tick of the shipped run the four
normal loads sum to 5 (the vehicle mass), not to the total static weight
`mass*g = 49.05` the claim states. -/
theorem C2_counterexample :
    sumFz (accel_FrictionLimited frcSim demoSolver (initState frcSim)) ≠
      frc_vehicle.m * 9.81 := by
  rw [sumFz_accel, initFz_sum (by norm_num [frcSim, frc_vehicle, Vehicle.l])]
  norm_num [frcSim, frc_vehicle]

/-- C2 (amended): at every tick of every run, the initial state included,
the four normal loads sum exactly to the vehicle's total static load as the
code initialises it — the mass `m`, with no factor of `g`; weight transfer
redistributes front/rear but never changes the total. -/
theorem C2_total_load_invariant (S : Sim) (solver : ℝ → Fin 4 → ℝ)
    (hl : S.Vehicle.l ≠ 0) :
    ∀ st ∈ initState S :: simTrace S solver, sumFz st = S.Vehicle.m := by
  intro st hst
  rcases List.mem_cons.mp hst with h | h
  · subst h
    rw [sumFz_initState, initFz_sum hl]
  · rw [simTrace] at h
    obtain ⟨s0, rfl⟩ := mem_traceAux h
    rw [sumFz_accel, initFz_sum hl]

theorem C2_witness : sumFz (initState frcSim) = frcSim.Vehicle.m :=
  C2_total_load_invariant frcSim demoSolver
    (by norm_num [frcSim, frc_vehicle, Vehicle.l])
    (initState frcSim) (List.mem_cons_self _ _)

/-- C10: the static split gives each front wheel `m*b/l/2` and each rear
wheel `m*a/l/2`, with no factor of `g`, so the four loads sum exactly to
the vehicle mass `m` (mass units, not newtons), and the weight-transfer
update of a tick preserves that sum exactly. -/
theorem C10_mass_units_invariant (S : Sim) (solver : ℝ → Fin 4 → ℝ)
    (s : SimState) (hl : S.Vehicle.l ≠ 0) :
    sumFz (initState S) = S.Vehicle.m ∧
      sumFz (accel_FrictionLimited S solver s) = S.Vehicle.m := by
  constructor
  · rw [sumFz_initState, initFz_sum hl]
  · rw [sumFz_accel, initFz_sum hl]

theorem C10_witness :
    sumFz (initState frcSim) = frcSim.Vehicle.m ∧
      sumFz (accel_FrictionLimited frcSim demoSolver (initState frcSim)) =
        frcSim.Vehicle.m :=
  C10_mass_units_invariant frcSim demoSolver (initState frcSim)
    (by norm_num [frcSim, frc_vehicle, Vehicle.l])

/-- C5: in every committed tick state of every run — the initial state
included — every wheel's motor current is at most `Battery.Burst`: the
initial currents are zero and the current-limit loop clamps any demand
above the burst limit to exactly the burst limit. -/
theorem C5_amps_le_burst (S : Sim) (solver : ℝ → Fin 4 → ℝ)
    (hB : 0 ≤ S.Battery.Burst) :
    ∀ st ∈ initState S :: simTrace S solver, ∀ i : Fin 4,
      st.amps i ≤ S.Battery.Burst := by
  intro st hst i
  rcases List.mem_cons.mp hst with h | h
  · subst h
    simpa [initState] using hB
  · rw [simTrace] at h
    obtain ⟨s0, rfl⟩ := mem_traceAux h
    exact ampsOut_le S s0 i

theorem C5_witness : (initState frcSim).amps 0 ≤ frcSim.Battery.Burst :=
  C5_amps_le_burst frcSim demoSolver
    (by norm_num [frcSim, frc_battery, Battery.Burst, Battery.Constant])
    (initState frcSim) (List.mem_cons_self _ _) 0

/-- C8: with `dt = 0.01` and `runtime = 20` the driver's tick budget
`int(runtime/dt)` is exactly 2000, and the run emits exactly one snapshot
per tick — the output log has exactly 2000 entries, whatever the root
finder returns, and the loop stops there. -/
theorem C8_tick_count :
    numTicks frcSim = 2000 ∧
      ∀ solver : ℝ → Fin 4 → ℝ, (simTrace frcSim solver).length = 2000 := by
  have h : numTicks frcSim = 2000 := by
    rw [numTicks]
    have h20 : frcSim.runtime / frcSim.dt = (2000 : ℝ) := by norm_num [frcSim]
    rw [h20]
    norm_num
    rfl
  exact ⟨h, fun solver => by rw [simTrace, traceAux_length, h]⟩

/-- C4: for any tire and normal load, the peak-traction scan returns
exactly the argmax of `lonFriction(s, Fz) * Fz` over the grid
`s = k/100, k = 0..99`: the returned force bounds every grid sample, it is
attained at the returned index, and every earlier grid sample is strictly
below it, so ties go to the first maximal sample — the lowest slip. -/
theorem C4_grid_argmax (t : Tire) (Fz : ℝ) :
    (∀ k, k < 100 → gridForce t Fz k ≤ peakForce t Fz) ∧
    peakIdx t Fz < 100 ∧
    gridForce t Fz (peakIdx t Fz) = peakForce t Fz ∧
    (∀ j, j < peakIdx t Fz → gridForce t Fz j < peakForce t Fz) := by
  have hmem : peakForce t Fz ∈ gridList t Fz := pyMaxL_mem (gridList_ne_nil t Fz)
  have hub : ∀ k, k < 100 → gridForce t Fz k ≤ peakForce t Fz := by
    intro k hk
    exact le_pyMaxL (gridForce_mem t Fz hk)
  have hlen : peakIdx t Fz < 100 := by
    rw [peakIdx]
    have h1 := pyIndexOf_lt_length hmem
    rwa [gridList_length] at h1
  have hval : gridForce t Fz (peakIdx t Fz) = peakForce t Fz := by
    have h1 := pyIndexOf_getD hmem
    rw [peakIdx]
    rw [peakIdx] at hlen
    rwa [gridList_getD t Fz hlen] at h1
  refine ⟨hub, hlen, hval, ?_⟩
  intro j hj
  have hj' : j < 100 := lt_trans hj hlen
  rw [peakIdx] at hj
  have hne : gridForce t Fz j ≠ peakForce t Fz := by
    have h2 := pyIndexOf_first hj
    rwa [gridList_getD t Fz hj'] at h2
  exact lt_of_le_of_ne (hub j hj') hne

theorem C4_witness : gridForce frc_tire 50 3 ≤ peakForce frc_tire 50 :=
  (C4_grid_argmax frc_tire 50).1 3 (by norm_num)

/-- C3: evaluation of the clamp at the failing input (the shipped motor,
`Kv = 2000`, `k = 0.8`, and the clamped current `Battery.Burst = 97.5`):
the code recomputes the torque as `amps * Kt * (1/k)` — dividing by the
efficiency a second time — so feeding the result back through the forward
map `T/Kt*(1/k)` gives `Burst/k^2 ≠ Burst`, and the recomputed torque is
not the inverse-mapping value `amps * Kt * k` the claim states. -/
theorem C3_clamp_not_inverse :
    clampedTorque frc_motor frc_battery.Burst =
      frc_battery.Burst * frc_motor.Kt * (1 / frc_motor.k) ∧
    ampsRequired frc_motor (clampedTorque frc_motor frc_battery.Burst) ≠
      frc_battery.Burst ∧
    clampedTorque frc_motor frc_battery.Burst ≠
      frc_battery.Burst * frc_motor.Kt * frc_motor.k := by
  refine ⟨rfl, ?_, ?_⟩
  · norm_num [ampsRequired, clampedTorque, frc_motor, frc_battery, Motor.Kt,
      Battery.Burst, Battery.Constant]
  · norm_num [clampedTorque, frc_motor, frc_battery, Motor.Kt,
      Battery.Burst, Battery.Constant]

theorem probe_val (s F : ℝ) : lonFrictionVal probeTire s F = 0 := by
  rw [lonFrictionVal, FxRaw]
  norm_num [probeTire]

theorem probe_gridForce (k : ℕ) : gridForce probeTire 1 k = 0 := by
  rw [gridForce, probe_val]
  ring

theorem probe_gridList : gridList probeTire 1 = List.replicate 100 (0 : ℝ) := by
  rw [gridList, List.map_congr_left (fun k _ => probe_gridForce k)]
  simp [List.map_const']

theorem pyFoldMax_replicate (n : ℕ) : pyFoldMax 0 (List.replicate n (0 : ℝ)) = 0 := by
  induction n with
  | zero => simp [pyFoldMax]
  | succ k ih =>
    rw [List.replicate_succ]
    simp only [pyFoldMax]
    rw [if_neg (lt_irrefl _)]
    exact ih

theorem probe_peakForce : peakForce probeTire 1 = 0 := by
  rw [peakForce, probe_gridList, show (100 : ℕ) = 99 + 1 from rfl,
    List.replicate_succ]
  simp only [pyMaxL]
  exact pyFoldMax_replicate 99

theorem probe_peakIdx : peakIdx probeTire 1 = 0 := by
  rw [peakIdx, probe_peakForce, probe_gridList, show (100 : ℕ) = 99 + 1 from rfl,
    List.replicate_succ]
  simp [pyIndexOf]

theorem probe_peakSlip : peakSlip probeTire 1 = 0 := by
  rw [peakSlip, probe_peakIdx]
  norm_num

theorem probe_initFz (n : Fin 4) : initFz probeSim n = 1 := by
  rw [initFz]
  split_ifs <;> norm_num [probeSim, probeVehicle, Vehicle.l]

theorem probe_clamped : isClamped probeSim (initState probeSim) 0 := by
  have hT : probeSim.Tire = probeTire := rfl
  have hM : probeSim.Motor = probeMotor := rfl
  have hB : probeSim.Battery = probeBattery := rfl
  have hFz0 : (initState probeSim).Fz 0 = 1 := probe_initFz 0
  have hxd : (initState probeSim).x_dot = 0.0001 := rfl
  have hw0 : (initState probeSim).w 0 = 0 := rfl
  have hW : provW probeSim (initState probeSim) 0 = 0.0001 := by
    rw [provW, hT, hFz0, probe_peakSlip, hxd]
    norm_num [probeTire]
  have hT0 : provT probeSim (initState probeSim) 0 = 0.0001 := by
    rw [provT, hT, hFz0, probe_peakForce, hW, hw0]
    norm_num [probeTire]
  have hamps : provAmps probeSim (initState probeSim) 0 = 0.0001 * 0.10472 := by
    rw [provAmps, hM, hT0, ampsRequired]
    norm_num [probeMotor, Motor.Kt]
  rw [isClamped, hamps, hB]
  norm_num [probeBattery, Battery.Burst, Battery.Constant]

/-- C6: evaluation of the code at a failing input.  In the probe
configuration the current-limit branch runs on the very first tick, and
the step commits whatever the root-finding oracle returns — here 7 — as
the wheel speed, although the wheel-dynamics residual `w_fun` at 7 is 7,
not 0 (no root was found): the committed state is an ordinary state, no
distinct error is raised and the tick is not aborted. -/
theorem C6_unconverged_root_committed :
    (accel_FrictionLimited probeSim probeSolver (initState probeSim)).w 0 = 7 ∧
    w_fun probeSim (initState probeSim) 7
      (clampedTorque probeMotor probeBattery.Burst) 0 ≠ 0 := by
  have hT : probeSim.Tire = probeTire := rfl
  have hFz0 : (initState probeSim).Fz 0 = 1 := probe_initFz 0
  have hxd : (initState probeSim).x_dot = 0.0001 := rfl
  have hw0 : (initState probeSim).w 0 = 0 := rfl
  constructor
  · show wOut probeSim probeSolver (initState probeSim) 0 = 7
    rw [wOut, if_pos probe_clamped, wClamped]
    rfl
  · rw [w_fun, hT, hFz0, hxd, hw0, probe_val]
    have hTc : clampedTorque probeMotor probeBattery.Burst = 0 := by
      norm_num [clampedTorque, probeMotor, probeBattery, Motor.Kt,
        Battery.Burst, Battery.Constant]
    rw [hTc]
    norm_num [probeTire]
